import Mathlib

/-!
Shallow embedding of the gin-jwks repository (package `gin_jwks`, file
`new_private_key.go`): a configuration builder that resolves an RSA key
either by generating a fresh one or importing a PEM file, and a JWKS
HTTP handler `Jkws` that publishes the public-key parameters.

External collaborators (crypto/rsa generation, the jwx key library, the
filesystem, JSON rendering of gin/encoding/json) are modelled explicitly:
key generation, file reading and PEM parsing are parameters of an `Env`
record, while the jwx key object is the inductive `JwkKey` whose
operations (`setKid`, `setUsage`, `publicKey`, `get`) follow the jwx v2
contract for the calls the repository makes.  Go byte slices are
`List Nat` with elements `< 256`; Go `int` is `Int`.
-/

set_option maxHeartbeats 1000000

namespace GinJwks

/-- Constant `KeyUsageAsSignature = "sig"` (line 40 of the source). -/
def KeyUsageAsSignature : String := "sig"

/-- Options for generating a new key (`NewKeyOptions`, lines 54-57).
Go zero values: empty `keyId`, `bits = 0`. -/
structure NewKeyOptions where
  keyId : String
  bits : Int
deriving DecidableEq, Repr

/-- Options for importing an existing key (`ImportKeyOptions`, lines 64-67). -/
structure ImportKeyOptions where
  keyId : String
  privateKeyPemPath : String
deriving DecidableEq, Repr

/-- Public half of a jwx key; the handler only reads its key type
(`pubKey.KeyType().String()`). -/
structure PubJwk where
  kty : String
deriving DecidableEq, Repr

/-- Model of a `jwk.Key` value as produced by `jwk.FromRaw` on an RSA
private key (`rsaPriv`, carrying the big-endian bytes of the public
exponent `e` and modulus `n` plus the `kid`/`use` metadata) or by
`jwk.ParseKey` on some non-RSA-private PEM (`other`, e.g. an EC key,
which has no RSA `e`/`n` members). -/
inductive JwkKey where
  | rsaPriv (e n : List Nat) (kid usage : String)
  | other (kty kid usage : String)
deriving DecidableEq, Repr

namespace JwkKey

/-- Model of `key.Set(jwk.KeyIDKey, v)`: storing a string kid always
succeeds in jwx v2 (no non-emptiness check), so it is a total update. -/
def setKid : JwkKey → String → JwkKey
  | rsaPriv e n _ u, kid => rsaPriv e n kid u
  | other t _ u, kid => other t kid u

/-- Model of `key.Set(jwk.KeyUsageKey, v)`: total update, as in jwx. -/
def setUsage : JwkKey → String → JwkKey
  | rsaPriv e n kid _, u => rsaPriv e n kid u
  | other t kid _, u => other t kid u

/-- Model of `key.KeyID()`. -/
def kid : JwkKey → String
  | rsaPriv _ _ k _ => k
  | other _ k _ => k

/-- Model of `key.KeyUsage()`. -/
def usage : JwkKey → String
  | rsaPriv _ _ _ u => u
  | other _ _ u => u

/-- Model of the type assertion `key.(jwk.RSAPrivateKey)` succeeding. -/
def isRSAPrivate : JwkKey → Bool
  | rsaPriv _ _ _ _ => true
  | other _ _ _ => false

/-- Model of `key.PublicKey()`: succeeds for the keys this repository
handles; the returned public key reports the key type. -/
def publicKey : JwkKey → Option PubJwk
  | rsaPriv _ _ _ _ => some ⟨"RSA"⟩
  | other t _ _ => some ⟨t⟩

/-- Model of `key.Get(field)` for the byte-valued RSA members the handler
reads: an RSA private key exposes `e` and `n`; a non-RSA key has neither. -/
def get : JwkKey → String → Option (List Nat)
  | rsaPriv e n _ _, f => if f = "e" then some e else if f = "n" then some n else none
  | other _ _ _, _ => none

/-- State-passing form of `key.PublicKey()`: jwx getters do not mutate
the key, so the key comes back unchanged. -/
def publicKeyCall (k : JwkKey) : Option PubJwk × JwkKey := (k.publicKey, k)

/-- State-passing form of `key.Get`. -/
def getCall (k : JwkKey) (f : String) : Option (List Nat) × JwkKey := (k.get f, k)

end JwkKey

/-- The middleware configuration (`Config`, lines 43-47): a resolved key
plus the two optional facet option records. -/
structure Config where
  key : Option JwkKey
  newPkOpts : Option NewKeyOptions
  importPkOpts : Option ImportKeyOptions
deriving DecidableEq, Repr

/-- `NewConfigBuilder()` (lines 97-99): a fresh builder holds an empty
`Config` (all pointer fields nil). -/
def NewConfigBuilder : Config := { key := none, newPkOpts := none, importPkOpts := none }

namespace ConfigNewKeyBuilder

/-- `WithKeyLength` on the new-key facet (lines 130-134): initialise the
options record if nil, then set `bits`.  Both facets share the builder's
`config` pointer, so the state is the single `Config`. -/
def WithKeyLength (b : Config) (bits : Int) : Config :=
  let o := b.newPkOpts.getD { keyId := "", bits := 0 }
  { b with newPkOpts := some { o with bits := bits } }

/-- `WithKeyId` on the new-key facet (lines 137-141). -/
def WithKeyId (b : Config) (keyId : String) : Config :=
  let o := b.newPkOpts.getD { keyId := "", bits := 0 }
  { b with newPkOpts := some { o with keyId := keyId } }

end ConfigNewKeyBuilder

namespace ConfigImportKeyBuilder

/-- `WithPath` on the import facet (lines 109-113). -/
def WithPath (b : Config) (privateKeyPemPath : String) : Config :=
  let o := b.importPkOpts.getD { keyId := "", privateKeyPemPath := "" }
  { b with importPkOpts := some { o with privateKeyPemPath := privateKeyPemPath } }

/-- `WithKeyId` on the import facet (lines 116-120). -/
def WithKeyId (b : Config) (keyId : String) : Config :=
  let o := b.importPkOpts.getD { keyId := "", privateKeyPemPath := "" }
  { b with importPkOpts := some { o with keyId := keyId } }

end ConfigImportKeyBuilder

/-- Environment of external effects consumed by the builder:
`genKey bits` models `rsa.GenerateKey(rand.Reader, bits)` followed by
`jwk.FromRaw` (yielding the big-endian `e` and `n` bytes of the fresh
key, or the underlying error); `readFile` models `ioutil.ReadFile`;
`parsePEM` models `jwk.ParseKey(data, jwk.WithPEM(true))`. -/
structure Env where
  genKey : Int → Except String (List Nat × List Nat)
  readFile : String → Except String (List Nat)
  parsePEM : List Nat → Except String JwkKey

/-- `generatePrivateKey` (lines 204-216): generate a raw RSA key and wrap
it as a jwx key; a fresh key carries no kid/usage metadata yet. -/
def generatePrivateKey (env : Env) (opts : NewKeyOptions) : Except String JwkKey :=
  match env.genKey opts.bits with
  | .error msg => .error ("failed to generate new RSA private key: " ++ msg)
  | .ok (eb, nb) => .ok (.rsaPriv eb nb "" "")

/-- The two distinct failure kinds of `importPrivateKey`, distinguished
in the source by their wrapped messages. -/
inductive ImportErr where
  | fileRead (msg : String)
  | parse (msg : String)
deriving DecidableEq, Repr

/-- `importPrivateKey` (lines 219-233): read the PEM file, then parse it. -/
def importPrivateKey (env : Env) (opts : ImportKeyOptions) : Except ImportErr JwkKey :=
  match env.readFile opts.privateKeyPemPath with
  | .error msg => .error (.fileRead ("cannot read private key " ++ msg))
  | .ok keyData =>
    match env.parsePEM keyData with
    | .error msg => .error (.parse ("cannot parse private key " ++ msg))
    | .ok key => .ok key

/-- The error cases `Build` can return (lines 148-196), one constructor
per distinct `fmt.Errorf` site. -/
inductive BuildError where
  | bothSources
  | noSource
  | generationFailed (msg : String)
  | fileReadFailed (msg : String)
  | parseFailed (msg : String)
  | notRSAPrivateKey
  | publicKeyFailed
deriving DecidableEq, Repr

/-- Tail of `Build` after a key was resolved (lines 177-200): attach the
kid and usage metadata (`key.Set` on string values never fails in jwx),
check the key is an RSA private key, check the public key derives, then
assign `b.config.key` and return the mutated config.  The second
component of the result is the builder's `config` after the call (the
Go code mutates `b.config` in place only at line 198). -/
def finishBuild (b : Config) (key : JwkKey) (keyId : String) : Except BuildError Config × Config :=
  let key2 := (key.setKid keyId).setUsage KeyUsageAsSignature
  if key2.isRSAPrivate then
    match key2.publicKey with
    | some _ =>
      let b2 : Config := { b with key := some key2 }
      (.ok b2, b2)
    | none => (.error .publicKeyFailed, b)
  else (.error .notRSAPrivateKey, b)

/-- `Build` (lines 144-201).  The Go body is a chain of early returns:
error if both facets are set (line 148); otherwise run the generate
branch (153-160) or the import branch (163-170) — exactly one can run
once the both-set case is excluded — and error `noSource` if the local
`key` is still nil (172-174); then finish with metadata, checks and the
`b.config.key` assignment.  Errors from the import helper are wrapped
with `cannot import private key` (line 167). -/
def Build (env : Env) (b : Config) : Except BuildError Config × Config :=
  match b.newPkOpts, b.importPkOpts with
  | some _, some _ => (.error .bothSources, b)
  | some newOpts, none =>
    match generatePrivateKey env newOpts with
    | .error msg => (.error (.generationFailed ("cannot generate new private key " ++ msg)), b)
    | .ok key => finishBuild b key newOpts.keyId
  | none, some importOpts =>
    match importPrivateKey env importOpts with
    | .error (.fileRead msg) => (.error (.fileReadFailed ("cannot import private key " ++ msg)), b)
    | .error (.parse msg) => (.error (.parseFailed ("cannot import private key " ++ msg)), b)
    | .ok key => finishBuild b key importOpts.keyId
  | none, none => (.error .noSource, b)

/-- The key id the builder was configured with, when exactly one source
facet is selected (the `opts.KeyId()` that `Build` attaches). -/
def configuredKeyId (b : Config) : Option String :=
  match b.newPkOpts, b.importPkOpts with
  | some o, none => some o.keyId
  | none, some o => some o.keyId
  | _, _ => none

/-- One abstract builder call, used to state order-independence of the
facet setters (both facets mutate the one shared `config`). -/
inductive BuilderOp where
  | newWithKeyId (id : String)
  | newWithKeyLength (bits : Int)
  | importWithKeyId (id : String)
  | importWithPath (p : String)
deriving DecidableEq, Repr

/-- Apply one builder call to the shared config state. -/
def applyOp (b : Config) : BuilderOp → Config
  | .newWithKeyId id => ConfigNewKeyBuilder.WithKeyId b id
  | .newWithKeyLength bits => ConfigNewKeyBuilder.WithKeyLength b bits
  | .importWithKeyId id => ConfigImportKeyBuilder.WithKeyId b id
  | .importWithPath p => ConfigImportKeyBuilder.WithPath b p

/-- Apply a sequence of builder calls in order. -/
def applyOps (b : Config) (ops : List BuilderOp) : Config := ops.foldl applyOp b

/-- Whether a call belongs to the new-key (generation) facet. -/
def BuilderOp.isNewFacet : BuilderOp → Bool
  | .newWithKeyId _ => true
  | .newWithKeyLength _ => true
  | _ => false

/-- Whether a call belongs to the import facet. -/
def BuilderOp.isImportFacet : BuilderOp → Bool
  | .importWithKeyId _ => true
  | .importWithPath _ => true
  | _ => false

/-! ### Base64url encoding (`EncodeToString`, lines 278-280)

`base64.RawURLEncoding.EncodeToString`: the URL-safe base64 alphabet,
no padding.  The decoder below is Go's `RawURLEncoding` decode (default
non-strict mode, which ignores unused trailing bits), used to state the
round-trip property. -/

/-- Character of the URL-safe base64 alphabet at index `n < 64`. -/
def b64Char (n : Nat) : Char :=
  if n < 26 then Char.ofNat (65 + n)
  else if n < 52 then Char.ofNat (97 + (n - 26))
  else if n < 62 then Char.ofNat (48 + (n - 52))
  else if n = 62 then Char.ofNat 45
  else Char.ofNat 95

/-- Index of a character in the URL-safe base64 alphabet, `none` for a
character outside the alphabet. -/
def b64Index (c : Char) : Option Nat :=
  if 65 ≤ c.toNat ∧ c.toNat ≤ 90 then some (c.toNat - 65)
  else if 97 ≤ c.toNat ∧ c.toNat ≤ 122 then some (c.toNat - 97 + 26)
  else if 48 ≤ c.toNat ∧ c.toNat ≤ 57 then some (c.toNat - 48 + 52)
  else if c.toNat = 45 then some 62
  else if c.toNat = 95 then some 63
  else none

/-- Unpadded base64url encoding of a byte sequence, three input bytes
per four output characters, with the two- and three-character tails of
`RawURLEncoding` for one or two leftover bytes. -/
def encodeBytes : List Nat → List Char
  | [] => []
  | [b0] => [b64Char (b0 / 4), b64Char (b0 % 4 * 16)]
  | [b0, b1] => [b64Char (b0 / 4), b64Char (b0 % 4 * 16 + b1 / 16), b64Char (b1 % 16 * 4)]
  | b0 :: b1 :: b2 :: rest =>
    b64Char (b0 / 4) :: b64Char (b0 % 4 * 16 + b1 / 16) ::
      b64Char (b1 % 16 * 4 + b2 / 64) :: b64Char (b2 % 64) :: encodeBytes rest

/-- `EncodeToString` (lines 278-280): bytes to unpadded base64url. -/
def EncodeToString (src : List Nat) : String := String.mk (encodeBytes src)

/-- Unpadded base64url decoding (Go `RawURLEncoding` decode, non-strict):
four characters per three bytes, a two-character tail giving one byte and
a three-character tail giving two; a single leftover character or a
character outside the alphabet is an error. -/
def decodeChars : List Char → Option (List Nat)
  | [] => some []
  | [c0, c1] =>
    match b64Index c0, b64Index c1 with
    | some d0, some d1 => some [d0 * 4 + d1 / 16]
    | _, _ => none
  | [c0, c1, c2] =>
    match b64Index c0, b64Index c1, b64Index c2 with
    | some d0, some d1, some d2 => some [d0 * 4 + d1 / 16, d1 % 16 * 16 + d2 / 4]
    | _, _, _ => none
  | c0 :: c1 :: c2 :: c3 :: rest =>
    match b64Index c0, b64Index c1, b64Index c2, b64Index c3, decodeChars rest with
    | some d0, some d1, some d2, some d3, some tail =>
      some ((d0 * 4 + d1 / 16) :: (d1 % 16 * 16 + d2 / 4) :: (d2 % 4 * 64 + d3) :: tail)
    | _, _, _, _, _ => none
  | [_] => none

/-- Decode an unpadded base64url string back to bytes. -/
def decodeString (s : String) : Option (List Nat) := decodeChars s.data

/-- Big-endian value of a byte sequence (what the `e`/`n` byte strings
of an RSA JWK denote). -/
def beBytesToNat (bs : List Nat) : Nat := bs.foldl (fun acc b => acc * 256 + b) 0

/-! ### JSON rendering (gin `c.JSON` / `encoding/json`)

`c.JSON(200, gin.H\x7b"keys": []JkwsResponse\x7bres\x7d\x7d)` marshals
with `encoding/json`: struct fields in declaration order, string values
escaped (quote, backslash, control characters, and the HTML characters
as `<`, `>`, `&`). -/

/-- Lowercase hexadecimal digit. -/
def hexDigit (n : Nat) : Char :=
  if n < 10 then Char.ofNat (48 + n) else Char.ofNat (87 + (n - 10))

/-- Escaping of one character inside a JSON string, as `encoding/json`
(with its default HTML escaping) performs it. -/
def jsonEscapeChar (c : Char) : String :=
  if c = Char.ofNat 34 then "\\\""
  else if c = Char.ofNat 92 then "\\\\"
  else if c = Char.ofNat 10 then "\\n"
  else if c = Char.ofNat 13 then "\\r"
  else if c = Char.ofNat 9 then "\\t"
  else if c = Char.ofNat 60 then "\\u003c"
  else if c = Char.ofNat 62 then "\\u003e"
  else if c = Char.ofNat 38 then "\\u0026"
  else if c.toNat < 32 then
    String.mk [Char.ofNat 92, Char.ofNat 117, Char.ofNat 48, Char.ofNat 48,
      hexDigit (c.toNat / 16), hexDigit (c.toNat % 16)]
  else if c.toNat = 8232 then "\\u2028"
  else if c.toNat = 8233 then "\\u2029"
  else String.singleton c

/-- A JSON string literal for `s`. -/
def jsonQuote (s : String) : String :=
  "\"" ++ String.join (s.data.map jsonEscapeChar) ++ "\""

/-- `JkwsResponse` (lines 236-243): the JWKS entry DTO, with the JSON
field tags `kty`, `alg`, `e`, `n`, `use`, `kid`. -/
structure JkwsResponse where
  KeyTypeKey : String
  AlgorithmKey : String
  PubKeyExponentKey : String
  PubKeyModulusKey : String
  KeyUsageKey : String
  KeyIDKey : String
deriving DecidableEq, Repr

/-- JSON object for one `JkwsResponse`, fields in struct declaration
order as `encoding/json` marshals them. -/
def renderEntry (r : JkwsResponse) : String :=
  "\x7b\"kty\":" ++ jsonQuote r.KeyTypeKey ++
    ",\"alg\":" ++ jsonQuote r.AlgorithmKey ++
    ",\"e\":" ++ jsonQuote r.PubKeyExponentKey ++
    ",\"n\":" ++ jsonQuote r.PubKeyModulusKey ++
    ",\"use\":" ++ jsonQuote r.KeyUsageKey ++
    ",\"kid\":" ++ jsonQuote r.KeyIDKey ++ "\x7d"

/-- JSON body of `gin.H` with single key `keys` holding the entry list. -/
def renderDoc (entries : List JkwsResponse) : String :=
  "\x7b\"keys\":[" ++ String.intercalate "," (entries.map renderEntry) ++ "]\x7d"

/-! ### The handler `Jkws` (lines 247-275) -/

/-- Outcome of one handler invocation: an HTTP response with status and
JSON body, or a Go runtime panic (nil-pointer dereference of
`*config.key`, nil-interface method call when `PublicKey` errored, or
the `E.([]byte)` / `N.([]byte)` type assertion on a nil `Get` result —
the code discards every error with `_`). -/
inductive HandlerOutcome where
  | ok (status : Nat) (body : String)
  | panic
deriving DecidableEq, Repr

/-- The `JkwsResponse` the handler constructs (lines 261-268). -/
def mkJkwsEntry (pub : PubJwk) (E N : List Nat) (key : JwkKey) : JkwsResponse :=
  { KeyTypeKey := pub.kty
    AlgorithmKey := "RS256"
    PubKeyExponentKey := EncodeToString E
    PubKeyModulusKey := EncodeToString N
    KeyUsageKey := key.usage
    KeyIDKey := key.kid }

/-- `Jkws` (lines 247-275), one invocation: dereference `config.key`,
call `PublicKey`, `Get("e")`, `Get("n")` on the key (threaded in
state-passing form), and either serve status 200 with the single-entry
JWKS document or panic on a discarded error.  The second component is
the configuration state after the call. -/
def Jkws (config : Config) : HandlerOutcome × Config :=
  match config.key with
  | none => (.panic, config)
  | some key0 =>
    let pk := key0.publicKeyCall
    let ge := pk.2.getCall "e"
    let gn := ge.2.getCall "n"
    let config2 := { config with key := some gn.2 }
    match pk.1, ge.1, gn.1 with
    | some pub, some E, some N =>
      (.ok 200 (renderDoc [mkJkwsEntry pub E N gn.2]), config2)
    | _, _, _ => (.panic, config2)

/-- Configuration state after `i` successive handler invocations. -/
def serveN (b : Config) : Nat → Config
  | 0 => b
  | i + 1 => (Jkws (serveN b i)).2

/-! ### Concrete instances for witnesses and counterexamples -/

/-- Modulus bytes of a small concrete test key. -/
def fixtureModulus : List Nat :=
  [0xc3, 0x9f, 0x11, 0x42, 0x00, 0xff, 0x7e, 0x3d, 0x88, 0x41, 0x5a, 0x6b, 0x2c, 0x01, 0x9e, 0x5f]

/-- Concrete environment: generation succeeds and yields the fixture key
(exponent 65537, `fixtureModulus`); the filesystem has no readable file;
nothing parses as PEM. -/
def testEnv : Env :=
  { genKey := fun _ => .ok ([1, 0, 1], fixtureModulus)
    readFile := fun _ => .error "open /nope.pem: no such file or directory"
    parsePEM := fun _ => .error "failed to decode PEM data" }

/-- Builder state of `NewConfigBuilder().NewPrivateKey().WithKeyLength(2048)`
with no `WithKeyId` call. -/
def cfgNoKid : Config := ConfigNewKeyBuilder.WithKeyLength NewConfigBuilder 2048

/-- The configuration `Build` produces from `cfgNoKid` under `testEnv`:
the resolved key carries the empty key id. -/
def builtNoKid : Config :=
  { key := some (.rsaPriv [1, 0, 1] fixtureModulus "" "sig")
    newPkOpts := some { keyId := "", bits := 2048 }
    importPkOpts := none }

/-- Builder state of
`NewConfigBuilder().NewPrivateKey().WithKeyId("my-id").WithKeyLength(2048)`. -/
def cfgGen : Config :=
  ConfigNewKeyBuilder.WithKeyLength (ConfigNewKeyBuilder.WithKeyId NewConfigBuilder "my-id") 2048

/-- The configuration `Build` produces from `cfgGen` under `testEnv`. -/
def builtGen : Config :=
  { key := some (.rsaPriv [1, 0, 1] fixtureModulus "my-id" "sig")
    newPkOpts := some { keyId := "my-id", bits := 2048 }
    importPkOpts := none }

/-- Builder state of
`NewConfigBuilder().ImportPrivateKey().WithPath("/nope.pem").WithKeyId("k")`. -/
def cfgImp : Config :=
  ConfigImportKeyBuilder.WithKeyId (ConfigImportKeyBuilder.WithPath NewConfigBuilder "/nope.pem") "k"

/-- A configuration holding a key without RSA `e`/`n` members (e.g. an EC
key): `Jkws` accepts any `Config`, and on this one its discarded
`key.Get("e")` error turns into a panic at the `E.([]byte)` assertion. -/
def badKeyConfig : Config :=
  { key := some (.other "EC" "ec-key" "sig"), newPkOpts := none, importPkOpts := none }

/-- A configuration holding just one RSA private key and no builder
options, for stating handler-only properties. -/
def singleRsaConfig (eb nb : List Nat) (keyId u : String) : Config :=
  { key := some (.rsaPriv eb nb keyId u), newPkOpts := none, importPkOpts := none }

end GinJwks

namespace GinJwks

/-! ### Helper lemmas -/

/-- Decoding inverts the base64url alphabet on every valid index. -/
theorem b64Index_b64Char : ∀ n < 64, b64Index (b64Char n) = some n := by decide

/-- Decoding inverts encoding on byte lists (elements `< 256`), by
functional induction over the three-byte groups of the encoder. -/
theorem decodeChars_encodeBytes (src : List Nat) (h : ∀ b ∈ src, b < 256) :
    decodeChars (encodeBytes src) = some src := by
  induction src using encodeBytes.induct with
  | case1 => rfl
  | case2 b0 =>
    have hb0 : b0 < 256 := h b0 (by simp)
    simp only [encodeBytes, decodeChars,
      b64Index_b64Char (b0 / 4) (by omega),
      b64Index_b64Char (b0 % 4 * 16) (by omega),
      Option.some.injEq, List.cons.injEq, and_true]
    omega
  | case3 b0 b1 =>
    have hb0 : b0 < 256 := h b0 (by simp)
    have hb1 : b1 < 256 := h b1 (by simp)
    simp only [encodeBytes, decodeChars,
      b64Index_b64Char (b0 / 4) (by omega),
      b64Index_b64Char (b0 % 4 * 16 + b1 / 16) (by omega),
      b64Index_b64Char (b1 % 16 * 4) (by omega),
      Option.some.injEq, List.cons.injEq, and_true]
    omega
  | case4 b0 b1 b2 rest ih =>
    have hb0 : b0 < 256 := h b0 (by simp)
    have hb1 : b1 < 256 := h b1 (by simp)
    have hb2 : b2 < 256 := h b2 (by simp)
    have hrest : ∀ b ∈ rest, b < 256 := fun b hb => h b (by simp [hb])
    simp only [encodeBytes, decodeChars,
      b64Index_b64Char (b0 / 4) (by omega),
      b64Index_b64Char (b0 % 4 * 16 + b1 / 16) (by omega),
      b64Index_b64Char (b1 % 16 * 4 + b2 / 64) (by omega),
      b64Index_b64Char (b2 % 64) (by omega),
      ih hrest, Option.some.injEq, List.cons.injEq, and_true]
    refine ⟨by omega, by omega, by omega⟩

/-- `finishBuild` succeeds exactly on RSA private keys, and then returns
the input config with the finished key installed. -/
theorem finishBuild_ok_iff (b : Config) (key : JwkKey) (keyId : String) (c2 : Config) :
    (finishBuild b key keyId).1 = .ok c2 ↔
      ∃ eb nb k0 u0, key = .rsaPriv eb nb k0 u0 ∧
        c2 = { b with key := some (.rsaPriv eb nb keyId KeyUsageAsSignature) } := by
  cases key with
  | rsaPriv e n k0 u0 =>
    simp only [finishBuild, JwkKey.setKid, JwkKey.setUsage, JwkKey.isRSAPrivate,
      JwkKey.publicKey, if_true, Except.ok.injEq, JwkKey.rsaPriv.injEq]
    constructor
    · intro h
      exact ⟨e, n, k0, u0, ⟨rfl, rfl, rfl, rfl⟩, h.symm⟩
    · rintro ⟨eb, nb, k1, u1, ⟨rfl, rfl, rfl, rfl⟩, rfl⟩
      rfl
  | other t k0 u0 =>
    simp [finishBuild, JwkKey.setKid, JwkKey.setUsage, JwkKey.isRSAPrivate,
      JwkKey.publicKey]

/-- On its error paths `finishBuild` hands the builder config back
untouched. -/
theorem finishBuild_error_snd (b : Config) (key : JwkKey) (keyId : String) (e : BuildError)
    (h : (finishBuild b key keyId).1 = .error e) :
    (finishBuild b key keyId).2 = b := by
  cases key <;>
    simp_all [finishBuild, JwkKey.setKid, JwkKey.setUsage, JwkKey.isRSAPrivate,
      JwkKey.publicKey]

/-- Shape of every successful `Build`: exactly one source facet was
selected, and the result is the input config with an RSA private key
carrying that facet's key id and usage `"sig"` installed. -/
theorem build_ok_spec (env : Env) (b c2 : Config) (h : (Build env b).1 = .ok c2) :
    ∃ eb nb keyId, configuredKeyId b = some keyId ∧
      c2 = { b with key := some (.rsaPriv eb nb keyId KeyUsageAsSignature) } := by
  unfold Build at h
  cases hn : b.newPkOpts with
  | some newOpts =>
    cases hi : b.importPkOpts with
    | some importOpts =>
      simp only [hn, hi] at h
      exact Except.noConfusion h
    | none =>
      cases hg : generatePrivateKey env newOpts with
      | error msg =>
        simp only [hn, hi, hg] at h
        exact Except.noConfusion h
      | ok key =>
        simp only [hn, hi, hg] at h
        obtain ⟨eb, nb, k0, u0, hkey, hc2⟩ := (finishBuild_ok_iff _ _ _ _).mp h
        exact ⟨eb, nb, newOpts.keyId, by simp [configuredKeyId, hn, hi],
          by rw [hc2, hn, hi]⟩
  | none =>
    cases hi : b.importPkOpts with
    | none =>
      simp only [hn, hi] at h
      exact Except.noConfusion h
    | some importOpts =>
      cases him : importPrivateKey env importOpts with
      | error ie =>
        cases ie <;> simp only [hn, hi, him] at h <;> exact Except.noConfusion h
      | ok key =>
        simp only [hn, hi, him] at h
        obtain ⟨eb, nb, k0, u0, hkey, hc2⟩ := (finishBuild_ok_iff _ _ _ _).mp h
        exact ⟨eb, nb, importOpts.keyId, by simp [configuredKeyId, hn, hi],
          by rw [hc2, hn, hi]⟩

/-- Computation of the handler on a configuration holding an RSA private
key: status 200 and the single-entry JWKS document. -/
theorem jkws_rsaPriv (eb nb : List Nat) (keyId u : String)
    (np : Option NewKeyOptions) (ip : Option ImportKeyOptions) :
    (Jkws { key := some (.rsaPriv eb nb keyId u), newPkOpts := np, importPkOpts := ip }).1 =
      .ok 200 (renderDoc [{ KeyTypeKey := "RSA"
                            AlgorithmKey := "RS256"
                            PubKeyExponentKey := EncodeToString eb
                            PubKeyModulusKey := EncodeToString nb
                            KeyUsageKey := u
                            KeyIDKey := keyId }]) := rfl

/-- One handler invocation leaves the configuration unchanged: every key
operation the handler performs is a read. -/
theorem jkws_snd (b : Config) : (Jkws b).2 = b := by
  rcases b with ⟨_ | k, np, ip⟩
  · rfl
  · cases k <;> rfl

/-- Any number of handler invocations leaves the configuration unchanged. -/
theorem serveN_eq (b : Config) (i : Nat) : serveN b i = b := by
  induction i with
  | zero => rfl
  | succ i ih => simp [serveN, ih, jkws_snd]

/-- A new-facet call sets `newPkOpts`; import-facet calls leave it alone. -/
theorem applyOp_newPkOpts_isSome (b : Config) (op : BuilderOp) :
    ((applyOp b op).newPkOpts).isSome = (b.newPkOpts.isSome || op.isNewFacet) := by
  cases op <;>
    simp [applyOp, ConfigNewKeyBuilder.WithKeyId, ConfigNewKeyBuilder.WithKeyLength,
      ConfigImportKeyBuilder.WithKeyId, ConfigImportKeyBuilder.WithPath, BuilderOp.isNewFacet]

/-- An import-facet call sets `importPkOpts`; new-facet calls leave it alone. -/
theorem applyOp_importPkOpts_isSome (b : Config) (op : BuilderOp) :
    ((applyOp b op).importPkOpts).isSome = (b.importPkOpts.isSome || op.isImportFacet) := by
  cases op <;>
    simp [applyOp, ConfigNewKeyBuilder.WithKeyId, ConfigNewKeyBuilder.WithKeyLength,
      ConfigImportKeyBuilder.WithKeyId, ConfigImportKeyBuilder.WithPath, BuilderOp.isImportFacet]

/-- After a call sequence, `newPkOpts` is set iff it was set before or
some call belonged to the new-key facet. -/
theorem applyOps_newPkOpts_isSome (ops : List BuilderOp) : ∀ b : Config,
    ((applyOps b ops).newPkOpts).isSome =
      (b.newPkOpts.isSome || ops.any BuilderOp.isNewFacet) := by
  induction ops with
  | nil => intro b; simp [applyOps]
  | cons op ops ih =>
    intro b
    have h1 : applyOps b (op :: ops) = applyOps (applyOp b op) ops := rfl
    rw [h1, ih, applyOp_newPkOpts_isSome, List.any_cons, Bool.or_assoc]

/-- After a call sequence, `importPkOpts` is set iff it was set before or
some call belonged to the import facet. -/
theorem applyOps_importPkOpts_isSome (ops : List BuilderOp) : ∀ b : Config,
    ((applyOps b ops).importPkOpts).isSome =
      (b.importPkOpts.isSome || ops.any BuilderOp.isImportFacet) := by
  induction ops with
  | nil => intro b; simp [applyOps]
  | cons op ops ih =>
    intro b
    have h1 : applyOps b (op :: ops) = applyOps (applyOp b op) ops := rfl
    rw [h1, ih, applyOp_importPkOpts_isSome, List.any_cons, Bool.or_assoc]

end GinJwks

namespace GinJwks

/-! ### Claim theorems -/

/-- C1 counterexample: `Build` does not require a key id.  The builder
`NewPrivateKey().WithKeyLength(2048)` — `WithKeyId` never called — builds
successfully, and the resolved key's kid is the empty string, so the
claimed invariant "a ResolvedKey never has an empty kid" fails. -/
theorem buildWithoutKeyIdSucceeds :
    (Build testEnv cfgNoKid).1 = .ok builtNoKid ∧
    builtNoKid.key.map JwkKey.kid = some "" := ⟨rfl, rfl⟩

/-- C1 (amended): `Build()` does not check that a key id was set; whenever
it succeeds, the resolved key carries exactly the configured facet's
`keyId` string — possibly empty — and usage `"sig"`. -/
theorem buildAttachesConfiguredKid (env : Env) (b c2 : Config)
    (h : (Build env b).1 = .ok c2) :
    ∃ k, c2.key = some k ∧ some k.kid = configuredKeyId b ∧
      k.usage = KeyUsageAsSignature := by
  obtain ⟨eb, nb, keyId, hconf, hc2⟩ := build_ok_spec env b c2 h
  refine ⟨.rsaPriv eb nb keyId KeyUsageAsSignature, by rw [hc2], ?_, rfl⟩
  rw [hconf]
  rfl

/-- C1 witness: the amended claim at the concrete builder that sets kid
`"my-id"` and key length 2048. -/
theorem buildAttachesConfiguredKidWitness :
    ∃ k, builtGen.key = some k ∧ some k.kid = configuredKeyId cfgGen ∧
      k.usage = KeyUsageAsSignature :=
  buildAttachesConfiguredKid testEnv cfgGen builtGen rfl

/-- C2: when extracting the RSA exponent/modulus fails at request time
(here: the config holds a key without RSA `e`/`n` members), the handler
panics at the discarded-error type assertion instead of responding with
any HTTP status — in particular it serves no 5xx response.  This
evaluates the code at the failing input of the code_bug verdict. -/
theorem jkwsPanicsWhenRsaMembersMissing :
    (Jkws badKeyConfig).1 = .panic ∧
    ∀ (status : Nat) (body : String), (Jkws badKeyConfig).1 ≠ .ok status body :=
  ⟨rfl, fun _ _ h => HandlerOutcome.noConfusion h⟩

/-- C3: for every successfully built configuration, the handler answers
status 200 with the JSON document holding exactly one entry whose `kty`
is `"RSA"`, `alg` is `"RS256"`, `use` is `"sig"`, `kid` is the configured
key id, and `e`/`n` are the unpadded base64url encodings of the resolved
key's big-endian exponent and modulus bytes. -/
theorem buildThenJkwsDocument (env : Env) (b c2 : Config)
    (h : (Build env b).1 = .ok c2) :
    ∃ eb nb keyId, configuredKeyId b = some keyId ∧
      c2.key = some (.rsaPriv eb nb keyId KeyUsageAsSignature) ∧
      (Jkws c2).1 = .ok 200 (renderDoc [{ KeyTypeKey := "RSA"
                                          AlgorithmKey := "RS256"
                                          PubKeyExponentKey := EncodeToString eb
                                          PubKeyModulusKey := EncodeToString nb
                                          KeyUsageKey := KeyUsageAsSignature
                                          KeyIDKey := keyId }]) := by
  obtain ⟨eb, nb, keyId, hconf, hc2⟩ := build_ok_spec env b c2 h
  subst hc2
  exact ⟨eb, nb, keyId, hconf, rfl,
    jkws_rsaPriv eb nb keyId KeyUsageAsSignature b.newPkOpts b.importPkOpts⟩

/-- C3 witness: the served JWKS document for the concretely built
configuration with kid `"my-id"`. -/
theorem buildThenJkwsDocumentWitness :
    ∃ eb nb keyId, configuredKeyId cfgGen = some keyId ∧
      builtGen.key = some (.rsaPriv eb nb keyId KeyUsageAsSignature) ∧
      (Jkws builtGen).1 = .ok 200 (renderDoc [{ KeyTypeKey := "RSA"
                                                AlgorithmKey := "RS256"
                                                PubKeyExponentKey := EncodeToString eb
                                                PubKeyModulusKey := EncodeToString nb
                                                KeyUsageKey := KeyUsageAsSignature
                                                KeyIDKey := keyId }]) :=
  buildThenJkwsDocument testEnv cfgGen builtGen rfl

/-- C4: whenever a builder-call sequence touches both the generation
facet and the import facet — in any order — `Build` fails with the
both-sources error and the builder config is left without a key. -/
theorem buildBothSourcesError (env : Env) (ops : List BuilderOp)
    (h1 : ops.any BuilderOp.isNewFacet = true)
    (h2 : ops.any BuilderOp.isImportFacet = true) :
    Build env (applyOps NewConfigBuilder ops) =
      (.error .bothSources, applyOps NewConfigBuilder ops) := by
  have hn := applyOps_newPkOpts_isSome ops NewConfigBuilder
  have hi := applyOps_importPkOpts_isSome ops NewConfigBuilder
  rw [h1, Bool.or_true] at hn
  rw [h2, Bool.or_true] at hi
  obtain ⟨o1, ho1⟩ := Option.isSome_iff_exists.mp hn
  obtain ⟨o2, ho2⟩ := Option.isSome_iff_exists.mp hi
  unfold Build
  simp only [ho1, ho2]

/-- C4 witness: `NewPrivateKey().WithKeyLength(2048)` followed by
`ImportPrivateKey().WithPath("x")` fails with the both-sources error. -/
theorem buildBothSourcesErrorWitness :
    Build testEnv (applyOps NewConfigBuilder
      [BuilderOp.newWithKeyLength 2048, BuilderOp.importWithPath "x"]) =
    (.error .bothSources, applyOps NewConfigBuilder
      [BuilderOp.newWithKeyLength 2048, BuilderOp.importWithPath "x"]) :=
  buildBothSourcesError testEnv _ rfl rfl

/-- C5: with neither generation nor import selected, `Build` fails with
the no-source error and returns no configuration. -/
theorem buildNoSourceError (env : Env) (b : Config)
    (hn : b.newPkOpts = none) (hi : b.importPkOpts = none) :
    Build env b = (.error .noSource, b) := by
  unfold Build
  simp only [hn, hi]

/-- C5 witness: `Build` on a fresh builder fails with the no-source error. -/
theorem buildNoSourceErrorWitness :
    Build testEnv NewConfigBuilder = (.error .noSource, NewConfigBuilder) :=
  buildNoSourceError testEnv NewConfigBuilder rfl rfl

/-- C6: for an import-configured builder, `Build` fails with the
file-read error when the PEM file cannot be read, and with the parse
error when its content is not a valid PEM key; both return no
configuration and leave the builder state untouched. -/
theorem buildImportFailureErrors (env : Env) (b : Config) (opts : ImportKeyOptions)
    (hn : b.newPkOpts = none) (hi : b.importPkOpts = some opts) :
    (∀ msg, env.readFile opts.privateKeyPemPath = .error msg →
      Build env b = (.error (.fileReadFailed
        ("cannot import private key " ++ ("cannot read private key " ++ msg))), b)) ∧
    (∀ data msg, env.readFile opts.privateKeyPemPath = .ok data →
      env.parsePEM data = .error msg →
      Build env b = (.error (.parseFailed
        ("cannot import private key " ++ ("cannot parse private key " ++ msg))), b)) := by
  constructor
  · intro msg hmsg
    unfold Build
    simp only [hn, hi, importPrivateKey, hmsg]
  · intro data msg hdata hmsg
    unfold Build
    simp only [hn, hi, importPrivateKey, hdata, hmsg]

/-- C6 witness: importing from the unreadable path `/nope.pem` fails with
the wrapped file-read error. -/
theorem buildImportFailureErrorsWitness :
    Build testEnv cfgImp = (.error (.fileReadFailed
      "cannot import private key cannot read private key open /nope.pem: no such file or directory"), cfgImp) := by
  have h := (buildImportFailureErrors testEnv cfgImp
    { keyId := "k", privateKeyPemPath := "/nope.pem" } rfl rfl).1
    "open /nope.pem: no such file or directory" rfl
  exact h

/-- C7: the big-endian bytes `0x01 0x00 0x01` denote 65537; for every
resolved key whose exponent bytes are these, the handler's `e` field is
exactly `"AQAB"`; and on the fixed fixture key with kid `"my-id"` the
handler's document is byte-for-byte the expected JSON. -/
theorem exponent65537EncodesAQAB :
    beBytesToNat [1, 0, 1] = 65537 ∧
    (∀ (nb : List Nat) (keyId u : String),
      (Jkws (singleRsaConfig [1, 0, 1] nb keyId u)).1 =
        .ok 200 (renderDoc [{ KeyTypeKey := "RSA"
                              AlgorithmKey := "RS256"
                              PubKeyExponentKey := "AQAB"
                              PubKeyModulusKey := EncodeToString nb
                              KeyUsageKey := u
                              KeyIDKey := keyId }])) ∧
    (Jkws builtGen).1 = .ok 200
      "\x7b\"keys\":[\x7b\"kty\":\"RSA\",\"alg\":\"RS256\",\"e\":\"AQAB\",\"n\":\"w58RQgD_fj2IQVprLAGeXw\",\"use\":\"sig\",\"kid\":\"my-id\"\x7d]\x7d" :=
  ⟨rfl, fun _ _ _ => rfl, rfl⟩

/-- C8: decoding the unpadded base64url encoding of any byte sequence
recovers exactly that sequence, so the `e`/`n` strings the handler
publishes decode back to the resolved key's original byte values. -/
theorem encodeDecodeRoundTrip (src : List Nat) (h : ∀ b ∈ src, b < 256) :
    decodeString (EncodeToString src) = some src :=
  decodeChars_encodeBytes src h

/-- C8 witness: the round trip on a concrete byte sequence. -/
theorem encodeDecodeRoundTripWitness :
    (∀ b ∈ [1, 0, 1, 255, 0, 77], b < 256) ∧
    decodeString (EncodeToString [1, 0, 1, 255, 0, 77]) = some [1, 0, 1, 255, 0, 77] :=
  ⟨by decide, encodeDecodeRoundTrip [1, 0, 1, 255, 0, 77] (by decide)⟩

/-- C9: the handler is a deterministic, stateless function of the
configuration: across any sequence of invocations, the response of the
i-th and j-th invocation coincide, and the configuration (hence the
resolved key) after any number of invocations is the initial one. -/
theorem jkwsDeterministicStateless (b : Config) (i j : Nat) :
    (Jkws (serveN b i)).1 = (Jkws (serveN b j)).1 ∧ serveN b i = b := by
  rw [serveN_eq b i, serveN_eq b j]
  exact ⟨rfl, rfl⟩

/-- C10: whenever `Build` returns an error it returns no configuration
(by the `Except` result shape) and leaves the builder's config — in
particular its `key` field — exactly as it was: no key is installed on
any error path. -/
theorem buildErrorLeavesConfigUnchanged (env : Env) (b : Config) (e : BuildError)
    (h : (Build env b).1 = .error e) :
    (Build env b).2 = b := by
  unfold Build at h ⊢
  cases hn : b.newPkOpts with
  | some newOpts =>
    cases hi : b.importPkOpts with
    | some importOpts => simp only [hn, hi]
    | none =>
      cases hg : generatePrivateKey env newOpts with
      | error msg => simp only [hn, hi, hg]
      | ok key =>
        simp only [hn, hi, hg] at h ⊢
        exact finishBuild_error_snd _ _ _ _ h
  | none =>
    cases hi : b.importPkOpts with
    | none => simp only [hn, hi]
    | some importOpts =>
      cases him : importPrivateKey env importOpts with
      | error ie => cases ie <;> simp only [hn, hi, him]
      | ok key =>
        simp only [hn, hi, him] at h ⊢
        exact finishBuild_error_snd _ _ _ _ h

/-- C10 witness: the failing `Build` on a fresh builder leaves the
builder's config unchanged. -/
theorem buildErrorLeavesConfigUnchangedWitness :
    (Build testEnv NewConfigBuilder).2 = NewConfigBuilder :=
  buildErrorLeavesConfigUnchanged testEnv NewConfigBuilder .noSource rfl

end GinJwks
